import Mathlib

/-!
Shallow embedding of the brewery Modbus server, from `src/main.py` and
`src/debug_server.py`.  Both files define a class `BreweryModbusServer`
over a pymodbus datastore; the two files share `add_fermenter`,
`remove_fermenter` and `read_setpoints` verbatim and differ in
`_setup_datastore`, `update_chiller_data` and `update_fermenter_data`.
Shared code is embedded once at top level; the file-specific operations
live in the namespaces `MainServer` (for `src/main.py`) and `DebugServer`
(for `src/debug_server.py`).

Numeric fields carried by the simulation driver are Python floats; they
are embedded as exact rationals, and Python's `int()` as truncation
toward zero.  The four register spaces are embedded as total maps from
addresses to values, with `setValues(fx, addr, [v])` as a pointwise
update; the register-space bounds chosen by `_setup_datastore` are
recorded separately as `DataBlock` layouts.
-/

/-- Python `int()` on an exact rational: truncation toward zero. -/
def pyInt (q : ℚ) : ℤ := if q < 0 then -((-q).floor) else q.floor

/-- One register space, as a total map from address to stored value.
`setValues(fx, a, [v])` writes a single cell. -/
def setReg (f : ℤ → ℤ) (a v : ℤ) : ℤ → ℤ := fun x => if x = a then v else f x

/-- A loop of single-cell writes at consecutive addresses, as performed by
`for i, value in enumerate(values): slave_context.setValues(fx, base + i, [value])`. -/
def writeSeq : (ℤ → ℤ) → ℤ → List ℤ → (ℤ → ℤ)
  | f, _, [] => f
  | f, a, v :: vs => writeSeq (setReg f a v) (a + 1) vs

/-- `self.CHILLER_BASE = 30001`. -/
def CHILLER_BASE : ℤ := 30001

/-- `self.FERMENTER_BASE = 30021`. -/
def FERMENTER_BASE : ℤ := 30021

/-- `self.REGISTERS_PER_FERMENTER = 10`. -/
def REGISTERS_PER_FERMENTER : ℤ := 10

/-- The mutable state of a `BreweryModbusServer`: the fermenter registry
`self.fermenters` (a Python dict, embedded as an association list in
insertion order) and the four register spaces of the datastore. -/
@[ext]
structure ServerState where
  fermenters : List (String × ℕ)
  input : ℤ → ℤ
  holding : ℤ → ℤ
  coils : ℤ → Bool
  discrete : ℤ → Bool

/-- Dict lookup `self.fermenters[fermenter_id]` / membership test. -/
def lookupFermenter (fs : List (String × ℕ)) (id : String) : Option ℕ :=
  (fs.find? (fun p => p.1 == id)).map (fun p => p.2)

/-- `used_indices = set(self.fermenters.values())`. -/
def usedIndices (fs : List (String × ℕ)) : List ℕ := fs.map (fun p => p.2)

/-- The `while fermenter_index in used_indices: fermenter_index += 1` loop,
written with explicit fuel (`used.length` steps always suffice). -/
def firstFreeFrom (used : List ℕ) : ℕ → ℕ → ℕ
  | 0, i => i
  | fuel + 1, i => if i ∈ used then firstFreeFrom used fuel (i + 1) else i

/-- The index found by the allocation loop of `add_fermenter`, starting at 0. -/
def lowestFree (used : List ℕ) : ℕ := firstFreeFrom used used.length 0

/-- Base address of a fermenter slot:
`FERMENTER_BASE + fermenter_index * REGISTERS_PER_FERMENTER`. -/
def fermenterBase (idx : ℕ) : ℤ := FERMENTER_BASE + (idx : ℤ) * REGISTERS_PER_FERMENTER

/-- The `initial_values` list written by `add_fermenter`. -/
def defaultFermenterBlock : List ℤ := [200, 200, 20, 80, 0, 0, 0, 0, 0, 1]

/-- `add_fermenter` (identical in `src/main.py` and `src/debug_server.py`):
no-op when the id is registered, otherwise allocate the lowest free index,
record the mapping and write the default block to Input space. -/
def add_fermenter (s : ServerState) (id : String) : ServerState :=
  if (lookupFermenter s.fermenters id).isSome then s
  else
    let idx := lowestFree (usedIndices s.fermenters)
    { s with
      fermenters := s.fermenters ++ [(id, idx)]
      input := writeSeq s.input (fermenterBase idx) defaultFermenterBlock }

/-- `remove_fermenter` (identical in both files): no-op when the id is not
registered, otherwise pop the mapping and zero the slot's 10 Input cells. -/
def remove_fermenter (s : ServerState) (id : String) : ServerState :=
  match lookupFermenter s.fermenters id with
  | none => s
  | some idx =>
    { s with
      fermenters := s.fermenters.eraseP (fun p => p.1 == id)
      input := writeSeq s.input (fermenterBase idx) (List.replicate 10 0) }

/-- The `data` dict passed to `update_chiller_data`; `none` is an omitted key. -/
structure ChillerData where
  reservoir_temp : Option ℚ := none
  supply_temp : Option ℚ := none
  return_temp : Option ℚ := none
  compressor_running : Option Bool := none
  compressor_power : Option ℚ := none
  total_heat_load : Option ℚ := none
  setpoint : Option ℚ := none
  efficiency : Option ℚ := none
  alarm_status : Option ℤ := none
  system_status : Option ℤ := none

/-- The `data` dict passed to `update_fermenter_data`; `none` is an omitted key. -/
structure FermenterData where
  current_temp : Option ℚ := none
  setpoint : Option ℚ := none
  supply_temp : Option ℚ := none
  return_temp : Option ℚ := none
  cooling_active : Option Bool := none
  duty_cycle : Option ℚ := none
  heat_load_to_chiller : Option ℚ := none
  fermentation_heat : Option ℚ := none
  alarm_status : Option ℤ := none
  status : Option ℤ := none

/-- The `registers` dict of `update_chiller_data`, as the list of values at
offsets `CHILLER_BASE + 0 .. CHILLER_BASE + 9` (identical expression in both
files). -/
def chillerRegisters (d : ChillerData) : List ℤ :=
  [ pyInt ((d.reservoir_temp.getD 0) * 10),
    pyInt ((d.supply_temp.getD 0) * 10),
    pyInt ((d.return_temp.getD 0) * 10),
    if d.compressor_running.getD false then 1 else 0,
    pyInt (d.compressor_power.getD 0),
    pyInt (d.total_heat_load.getD 0),
    pyInt ((d.setpoint.getD 0) * 10),
    pyInt ((d.efficiency.getD 0) * 10),
    d.alarm_status.getD 0,
    d.system_status.getD 1 ]

/-- The `registers` list of `update_fermenter_data` (identical expression in
both files). -/
def fermenterRegisters (d : FermenterData) : List ℤ :=
  [ pyInt ((d.current_temp.getD 0) * 10),
    pyInt ((d.setpoint.getD 0) * 10),
    pyInt ((d.supply_temp.getD 0) * 10),
    pyInt ((d.return_temp.getD 0) * 10),
    if d.cooling_active.getD false then 1 else 0,
    pyInt ((d.duty_cycle.getD 0) * 100),
    pyInt (d.heat_load_to_chiller.getD 0),
    pyInt (d.fermentation_heat.getD 0),
    d.alarm_status.getD 0,
    d.status.getD 1 ]

/-- `read_setpoints` (identical in both files): the chiller setpoint from
holding register 40001, and per-fermenter setpoints from `40001 + index`,
each descaled by 10. -/
def read_setpoints (s : ServerState) : ℚ × List (String × ℚ) :=
  (((s.holding 40001 : ℤ) : ℚ) / 10,
   s.fermenters.map (fun p => (p.1, ((s.holding (40001 + (p.2 : ℤ)) : ℤ) : ℚ) / 10)))

/-- Lookup of one fermenter's entry in the `fermenters` field returned by
`read_setpoints`. -/
def findSetpoint (l : List (String × ℚ)) (id : String) : Option ℚ :=
  (l.find? (fun p => p.1 == id)).map (fun p => p.2)

/-- A gateway write of a single holding register (Modbus function 6 routed to
the holding space by the device context). -/
def gatewayWriteHolding (s : ServerState) (a v : ℤ) : ServerState :=
  { s with holding := setReg s.holding a v }

/-- The server state right after `__init__`: empty registry, every register
cell zero (both `_setup_datastore` variants fill their blocks with zeros). -/
def initialState : ServerState :=
  { fermenters := []
    input := fun _ => 0
    holding := fun _ => 0
    coils := fun _ => false
    discrete := fun _ => false }

/-- One `ModbusSequentialDataBlock(start, [v] * size)`: it stores cells at
addresses `start, start + 1, ..., start + size - 1`. -/
structure DataBlock where
  start : ℕ
  size : ℕ

/-- The addresses a sequential data block can store. -/
def DataBlock.covers (b : DataBlock) (a : ℕ) : Prop :=
  b.start ≤ a ∧ a < b.start + b.size

/-- The four blocks a `_setup_datastore` call builds, in the order they are
handed to the device context. -/
structure DatastoreLayout where
  di : DataBlock
  co : DataBlock
  hr : DataBlock
  ir : DataBlock

namespace MainServer

/-- `_setup_datastore` of `src/main.py`: `MAX_REGISTERS = 1000`; input block
at 30001, holding block at 40001, each of 1000 cells; coils and discrete
inputs at 1, of 100 cells each. -/
def setup_datastore : DatastoreLayout :=
  { di := { start := 1, size := 100 }
    co := { start := 1, size := 100 }
    hr := { start := 40001, size := 1000 }
    ir := { start := 30001, size := 1000 } }

/-- `update_chiller_data` of `src/main.py`: write the ten chiller cells to
Input space, then unconditionally mirror the scaled setpoint
(`registers[self.CHILLER_BASE + 6]`) to holding register 40001. -/
def update_chiller_data (s : ServerState) (d : ChillerData) : ServerState :=
  let regs := chillerRegisters d
  { s with
    input := writeSeq s.input CHILLER_BASE regs
    holding := setReg s.holding 40001 (regs.getD 6 0) }

/-- `update_fermenter_data` of `src/main.py`: auto-register an unknown id,
write the ten fermenter cells to Input space at the slot's base, then
unconditionally mirror `registers[1]` to holding register `40001 + index`. -/
def update_fermenter_data (s : ServerState) (id : String) (d : FermenterData) : ServerState :=
  let s0 := if (lookupFermenter s.fermenters id).isSome then s else add_fermenter s id
  match lookupFermenter s0.fermenters id with
  | none => s0
  | some idx =>
    let regs := fermenterRegisters d
    { s0 with
      input := writeSeq s0.input (fermenterBase idx) regs
      holding := setReg s0.holding (40001 + (idx : ℤ)) (regs.getD 1 0) }

end MainServer

namespace DebugServer

/-- `_setup_datastore` of `src/debug_server.py`: all four blocks start at
address 1 with 65535 cells. -/
def setup_datastore : DatastoreLayout :=
  { di := { start := 1, size := 65535 }
    co := { start := 1, size := 65535 }
    hr := { start := 1, size := 65535 }
    ir := { start := 1, size := 65535 } }

/-- The gateway-override step of `update_chiller_data` in
`src/debug_server.py`: when the mirror value `cur` is non-zero and differs
from the scaled setpoint, the call mutates `data['setpoint']` to
`cur / 10.0` before building the register dict. -/
def effectiveChillerData (cur : ℤ) (d : ChillerData) : ChillerData :=
  if cur ≠ 0 ∧ cur ≠ pyInt ((d.setpoint.getD 0) * 10)
  then { d with setpoint := some ((cur : ℚ) / 10) } else d

/-- The identical gateway-override step of `update_fermenter_data` in
`src/debug_server.py`. -/
def effectiveFermenterData (cur : ℤ) (d : FermenterData) : FermenterData :=
  if cur ≠ 0 ∧ cur ≠ pyInt ((d.setpoint.getD 0) * 10)
  then { d with setpoint := some ((cur : ℚ) / 10) } else d

/-- `update_chiller_data` of `src/debug_server.py`: apply the gateway
override to `data`, write the ten chiller cells, overwrite cell 30002 with
the scaled (possibly overridden) setpoint, then write holding register
40001 only while it still holds 0 or the sentinel 20. -/
def update_chiller_data (s : ServerState) (d : ChillerData) : ServerState :=
  let d1 := effectiveChillerData (s.holding 40001) d
  let regs := chillerRegisters d1
  let setpointValue := pyInt ((d1.setpoint.getD 0) * 10)
  let input1 := writeSeq s.input CHILLER_BASE regs
  let input2 := setReg input1 30002 setpointValue
  let curHolding := s.holding 40001
  let holding2 :=
    if curHolding = 0 ∨ curHolding = 20 then setReg s.holding 40001 setpointValue
    else s.holding
  { s with input := input2, holding := holding2 }

/-- `update_fermenter_data` of `src/debug_server.py`: auto-register an
unknown id, apply the gateway override to `data`, write the ten fermenter
cells, write `registers[1]` to the slot's mirror unconditionally, then
re-read the mirror and write `registers[1]` again while it reads 0 or 20. -/
def update_fermenter_data (s : ServerState) (id : String) (d : FermenterData) : ServerState :=
  let s0 := if (lookupFermenter s.fermenters id).isSome then s else add_fermenter s id
  match lookupFermenter s0.fermenters id with
  | none => s0
  | some idx =>
    let mirror := 40001 + (idx : ℤ)
    let d1 := effectiveFermenterData (s0.holding mirror) d
    let regs := fermenterRegisters d1
    let input1 := writeSeq s0.input (fermenterBase idx) regs
    let holding1 := setReg s0.holding mirror (regs.getD 1 0)
    let cur2 := holding1 mirror
    let holding2 :=
      if cur2 = 0 ∨ cur2 = 20 then setReg holding1 mirror (regs.getD 1 0)
      else holding1
    { s0 with input := input1, holding := holding2 }

end DebugServer

/-! ## Basic lemmas about the register-map primitives -/

theorem setReg_same (f : ℤ → ℤ) (a v : ℤ) : setReg f a v a = v := by
  simp [setReg]

theorem setReg_other (f : ℤ → ℤ) (a v x : ℤ) (h : x ≠ a) : setReg f a v x = f x := by
  simp [setReg, h]

theorem writeSeq_out (vs : List ℤ) (f : ℤ → ℤ) (a x : ℤ)
    (h : x < a ∨ a + (vs.length : ℤ) ≤ x) : writeSeq f a vs x = f x := by
  induction vs generalizing f a with
  | nil => rfl
  | cons v vs ih =>
    simp only [writeSeq]
    rw [ih]
    · apply setReg_other
      simp only [List.length_cons] at h
      omega
    · simp only [List.length_cons] at h
      push_cast at h ⊢
      omega

theorem writeSeq_in (vs : List ℤ) (f : ℤ → ℤ) (a x : ℤ)
    (h1 : a ≤ x) (h2 : x < a + (vs.length : ℤ)) :
    writeSeq f a vs x = vs.getD (x - a).toNat 0 := by
  induction vs generalizing f a with
  | nil => simp at h2; omega
  | cons v vs ih =>
    simp only [writeSeq]
    by_cases hx : x = a
    · subst hx
      rw [writeSeq_out vs _ _ _ (Or.inl (by omega))]
      simp [setReg]
    · rw [ih (setReg f a v) (a + 1) (by omega)
        (by simp only [List.length_cons] at h2; push_cast at h2 ⊢; omega)]
      have hoff : (x - a).toNat = (x - (a + 1)).toNat + 1 := by omega
      rw [hoff, List.getD_cons_succ]

theorem rat_floor_eq_intFloor (q : ℚ) : q.floor = ⌊q⌋ := rfl

theorem pyInt_intCast (n : ℤ) : pyInt ((n : ℤ) : ℚ) = n := by
  unfold pyInt
  rw [rat_floor_eq_intFloor, rat_floor_eq_intFloor]
  split
  · rw [← Int.cast_neg, Int.floor_intCast]; ring
  · rw [Int.floor_intCast]

theorem pyInt_zero : pyInt 0 = 0 := by
  have := pyInt_intCast 0
  simpa using this

/-- The key arithmetic fact behind the gateway-override logic: descaling a
mirror value by 10 and rescaling it recovers the mirror value exactly. -/
theorem pyInt_descale_rescale (m : ℤ) : pyInt ((m : ℚ) / 10 * 10) = m := by
  have h : ((m : ℚ) / 10) * 10 = (m : ℚ) := by
    rw [div_mul_cancel₀]
    norm_num
  rw [h, pyInt_intCast]

/-! ## Lemmas about the fermenter registry -/

theorem lookupFermenter_append_self (fs : List (String × ℕ)) (id : String) (k : ℕ)
    (h : lookupFermenter fs id = none) :
    lookupFermenter (fs ++ [(id, k)]) id = some k := by
  unfold lookupFermenter at h ⊢
  rw [List.find?_append]
  rcases hf : fs.find? (fun p => p.1 == id) with _ | p
  · have hb : ([((id, k))].find? (fun p => p.1 == id)) = some (id, k) := by simp
    rw [hf, hb]
    rfl
  · rw [hf] at h; simp at h

theorem lookupFermenter_append_other (fs : List (String × ℕ)) (id id2 : String) (k : ℕ)
    (h : id2 ≠ id) :
    lookupFermenter (fs ++ [(id, k)]) id2 = lookupFermenter fs id2 := by
  unfold lookupFermenter
  rw [List.find?_append]
  have hb : ([((id, k))].find? (fun p => p.1 == id2)) = none := by
    simp [Ne.symm h]
  rw [hb, Option.or_none]

theorem lookupFermenter_eraseP_other (fs : List (String × ℕ)) (id id2 : String)
    (h : id2 ≠ id) :
    lookupFermenter (fs.eraseP (fun p => p.1 == id)) id2 = lookupFermenter fs id2 := by
  induction fs with
  | nil => rfl
  | cons p fs ih =>
    by_cases hp : p.1 = id
    · rw [List.eraseP_cons_of_pos (by simp [hp])]
      unfold lookupFermenter
      rw [List.find?_cons_of_neg _ (by simp [hp, Ne.symm h])]
    · rw [List.eraseP_cons_of_neg (by simp [hp])]
      by_cases hp2 : p.1 = id2
      · unfold lookupFermenter
        rw [List.find?_cons_of_pos _ (by simp [hp2]),
          List.find?_cons_of_pos _ (by simp [hp2])]
      · unfold lookupFermenter at ih ⊢
        rw [List.find?_cons_of_neg _ (by simp [hp2]),
          List.find?_cons_of_neg _ (by simp [hp2])]
        exact ih

theorem lookupFermenter_of_not_mem (fs : List (String × ℕ)) (id : String)
    (h : id ∉ fs.map Prod.fst) : lookupFermenter fs id = none := by
  unfold lookupFermenter
  rw [List.find?_eq_none.mpr]
  · rfl
  · intro p hp
    simp only [beq_iff_eq]
    intro hpe
    exact h (by simpa [hpe] using List.mem_map_of_mem Prod.fst hp)

theorem lookupFermenter_eraseP_self (fs : List (String × ℕ)) (id : String) (idx : ℕ)
    (hnd : (fs.map Prod.fst).Nodup) (h : lookupFermenter fs id = some idx) :
    lookupFermenter (fs.eraseP (fun p => p.1 == id)) id = none := by
  induction fs with
  | nil => simp [lookupFermenter] at h
  | cons p fs ih =>
    simp only [List.map_cons, List.nodup_cons] at hnd
    by_cases hp : p.1 = id
    · rw [List.eraseP_cons_of_pos (by simp [hp])]
      exact lookupFermenter_of_not_mem fs id (hp ▸ hnd.1)
    · rw [List.eraseP_cons_of_neg (by simp [hp])]
      unfold lookupFermenter at h ⊢
      rw [List.find?_cons_of_neg _ (by simp [hp])] at h ⊢
      exact ih hnd.2 h

/-! ## Correctness of the slot-allocation loop -/

theorem firstFreeFrom_spec (used : List ℕ) :
    ∀ fuel i, (used.toFinset.filter (fun j => i ≤ j)).card ≤ fuel →
      firstFreeFrom used fuel i ∉ used ∧ i ≤ firstFreeFrom used fuel i ∧
      ∀ j, i ≤ j → j < firstFreeFrom used fuel i → j ∈ used := by
  intro fuel
  induction fuel with
  | zero =>
    intro i h
    simp only [firstFreeFrom]
    refine ⟨?_, le_refl _, ?_⟩
    · intro hmem
      have hin : i ∈ used.toFinset.filter (fun j => i ≤ j) := by
        simp [List.mem_toFinset, hmem]
      have := Finset.card_pos.mpr ⟨i, hin⟩
      omega
    · intro j h1 h2
      omega
  | succ fuel ih =>
    intro i h
    simp only [firstFreeFrom]
    by_cases hc : i ∈ used
    · rw [if_pos hc]
      have hsub : used.toFinset.filter (fun j => i + 1 ≤ j)
          = (used.toFinset.filter (fun j => i ≤ j)).erase i := by
        ext j
        simp only [Finset.mem_filter, Finset.mem_erase, List.mem_toFinset]
        constructor
        · rintro ⟨hj, hle⟩
          exact ⟨by omega, hj, by omega⟩
        · rintro ⟨hne, hj, hle⟩
          exact ⟨hj, by omega⟩
      have hcard : (used.toFinset.filter (fun j => i + 1 ≤ j)).card ≤ fuel := by
        rw [hsub, Finset.card_erase_of_mem (by simp [List.mem_toFinset, hc])]
        omega
      obtain ⟨h1, h2, h3⟩ := ih (i + 1) hcard
      refine ⟨h1, by omega, ?_⟩
      intro j hj1 hj2
      rcases Nat.eq_or_lt_of_le hj1 with rfl | hlt
      · exact hc
      · exact h3 j (by omega) hj2
    · rw [if_neg hc]
      exact ⟨hc, le_refl _, fun j h1 h2 => by omega⟩

theorem lowestFree_spec (used : List ℕ) :
    lowestFree used ∉ used ∧ ∀ j, j < lowestFree used → j ∈ used := by
  have hcard : (used.toFinset.filter (fun j => 0 ≤ j)).card ≤ used.length := by
    have : used.toFinset.filter (fun j => 0 ≤ j) = used.toFinset := by
      apply Finset.filter_true_of_mem
      intro x _
      omega
    rw [this]
    exact used.toFinset_card_le
  obtain ⟨h1, _, h3⟩ := firstFreeFrom_spec used used.length 0 hcard
  exact ⟨h1, fun j hj => h3 j (Nat.zero_le j) hj⟩

/-! ## Behaviour of add_fermenter and remove_fermenter -/

theorem setReg_idem (f : ℤ → ℤ) (a v : ℤ) : setReg (setReg f a v) a v = setReg f a v := by
  funext x
  by_cases hx : x = a <;> simp [setReg, hx]

theorem add_fermenter_of_some (s : ServerState) (id : String)
    (h : (lookupFermenter s.fermenters id).isSome) : add_fermenter s id = s := by
  simp [add_fermenter, h]

theorem add_fermenter_of_none (s : ServerState) (id : String)
    (h : lookupFermenter s.fermenters id = none) :
    add_fermenter s id =
      { s with
        fermenters := s.fermenters ++ [(id, lowestFree (usedIndices s.fermenters))]
        input := writeSeq s.input (fermenterBase (lowestFree (usedIndices s.fermenters)))
          defaultFermenterBlock } := by
  simp [add_fermenter, h]

theorem add_fermenter_lookup_self (s : ServerState) (id : String)
    (h : lookupFermenter s.fermenters id = none) :
    lookupFermenter (add_fermenter s id).fermenters id
      = some (lowestFree (usedIndices s.fermenters)) := by
  rw [add_fermenter_of_none s id h]
  exact lookupFermenter_append_self _ _ _ h

theorem remove_fermenter_of_none (s : ServerState) (id : String)
    (h : lookupFermenter s.fermenters id = none) : remove_fermenter s id = s := by
  simp [remove_fermenter, h]

theorem remove_fermenter_of_some (s : ServerState) (id : String) (idx : ℕ)
    (h : lookupFermenter s.fermenters id = some idx) :
    remove_fermenter s id =
      { s with
        fermenters := s.fermenters.eraseP (fun p => p.1 == id)
        input := writeSeq s.input (fermenterBase idx) (List.replicate 10 0) } := by
  simp [remove_fermenter, h]

/-! ## Normal forms of the four update operations -/

theorem main_update_chiller_data_eq (s : ServerState) (d : ChillerData) :
    MainServer.update_chiller_data s d =
      { s with
        input := writeSeq s.input CHILLER_BASE (chillerRegisters d)
        holding := setReg s.holding 40001 ((chillerRegisters d).getD 6 0) } := rfl

theorem main_update_fermenter_data_of_some (s : ServerState) (id : String)
    (d : FermenterData) (idx : ℕ) (h : lookupFermenter s.fermenters id = some idx) :
    MainServer.update_fermenter_data s id d =
      { s with
        input := writeSeq s.input (fermenterBase idx) (fermenterRegisters d)
        holding := setReg s.holding (40001 + (idx : ℤ)) ((fermenterRegisters d).getD 1 0) } := by
  unfold MainServer.update_fermenter_data
  simp only [h, Option.isSome_some, if_true]

theorem main_update_fermenter_data_of_none (s : ServerState) (id : String)
    (d : FermenterData) (h : lookupFermenter s.fermenters id = none) :
    MainServer.update_fermenter_data s id d
      = MainServer.update_fermenter_data (add_fermenter s id) id d := by
  unfold MainServer.update_fermenter_data
  simp only [h, add_fermenter_lookup_self s id h, Option.isSome_none, Option.isSome_some,
    Bool.false_eq_true, if_false, if_true]

theorem debug_update_chiller_data_eq (s : ServerState) (d : ChillerData) :
    DebugServer.update_chiller_data s d =
      { s with
        input := setReg
          (writeSeq s.input CHILLER_BASE
            (chillerRegisters (DebugServer.effectiveChillerData (s.holding 40001) d)))
          30002
          (pyInt (((DebugServer.effectiveChillerData (s.holding 40001) d).setpoint.getD 0) * 10))
        holding :=
          if s.holding 40001 = 0 ∨ s.holding 40001 = 20 then
            setReg s.holding 40001
              (pyInt (((DebugServer.effectiveChillerData (s.holding 40001) d).setpoint.getD 0) * 10))
          else s.holding } := rfl

theorem debug_update_fermenter_data_of_some (s : ServerState) (id : String)
    (d : FermenterData) (idx : ℕ) (h : lookupFermenter s.fermenters id = some idx) :
    DebugServer.update_fermenter_data s id d =
      { s with
        input := writeSeq s.input (fermenterBase idx)
          (fermenterRegisters
            (DebugServer.effectiveFermenterData (s.holding (40001 + (idx : ℤ))) d))
        holding := setReg s.holding (40001 + (idx : ℤ))
          ((fermenterRegisters
            (DebugServer.effectiveFermenterData (s.holding (40001 + (idx : ℤ))) d)).getD 1 0) } := by
  unfold DebugServer.update_fermenter_data
  simp only [h, Option.isSome_some, if_true]
  rw [setReg_same]
  split
  · rw [setReg_idem]
  · rfl

theorem debug_update_fermenter_data_of_none (s : ServerState) (id : String)
    (d : FermenterData) (h : lookupFermenter s.fermenters id = none) :
    DebugServer.update_fermenter_data s id d
      = DebugServer.update_fermenter_data (add_fermenter s id) id d := by
  unfold DebugServer.update_fermenter_data
  simp only [h, add_fermenter_lookup_self s id h, Option.isSome_none, Option.isSome_some,
    Bool.false_eq_true, if_false, if_true]

/-! ## The effective setpoint after the gateway-override step -/

theorem DebugServer.effective_chiller_scaled (cur : ℤ) (d : ChillerData) (h : cur ≠ 0) :
    pyInt (((DebugServer.effectiveChillerData cur d).setpoint.getD 0) * 10) = cur := by
  unfold DebugServer.effectiveChillerData
  by_cases hc : cur ≠ 0 ∧ cur ≠ pyInt ((d.setpoint.getD 0) * 10)
  · rw [if_pos hc]
    simpa using pyInt_descale_rescale cur
  · rw [if_neg hc]
    push_neg at hc
    exact (hc h).symm

theorem DebugServer.effective_fermenter_scaled (cur : ℤ) (d : FermenterData) (h : cur ≠ 0) :
    pyInt (((DebugServer.effectiveFermenterData cur d).setpoint.getD 0) * 10) = cur := by
  unfold DebugServer.effectiveFermenterData
  by_cases hc : cur ≠ 0 ∧ cur ≠ pyInt ((d.setpoint.getD 0) * 10)
  · rw [if_pos hc]
    simpa using pyInt_descale_rescale cur
  · rw [if_neg hc]
    push_neg at hc
    exact (hc h).symm

/-! ## Cell-level views of the update operations -/

theorem chillerRegisters_length (d : ChillerData) : (chillerRegisters d).length = 10 := rfl

theorem fermenterRegisters_length (d : FermenterData) : (fermenterRegisters d).length = 10 := rfl

theorem defaultFermenterBlock_length : defaultFermenterBlock.length = 10 := rfl

theorem CHILLER_BASE_eq : CHILLER_BASE = 30001 := rfl

theorem fermenterBase_eq (idx : ℕ) : fermenterBase idx = 30021 + (idx : ℤ) * 10 := rfl

theorem main_update_chiller_input_cell (s : ServerState) (d : ChillerData)
    (i : ℕ) (hi : i < 10) :
    (MainServer.update_chiller_data s d).input (CHILLER_BASE + (i : ℤ))
      = (chillerRegisters d).getD i 0 := by
  rw [main_update_chiller_data_eq]
  show writeSeq s.input CHILLER_BASE (chillerRegisters d) (CHILLER_BASE + (i : ℤ))
    = (chillerRegisters d).getD i 0
  rw [writeSeq_in _ _ _ _ (by omega) (by rw [chillerRegisters_length]; push_cast; omega)]
  congr 1
  omega

theorem MainServer.update_chiller_holding_cell (s : ServerState) (d : ChillerData) :
    (MainServer.update_chiller_data s d).holding 40001 = pyInt ((d.setpoint.getD 0) * 10) := by
  rw [main_update_chiller_data_eq]
  show setReg s.holding 40001 ((chillerRegisters d).getD 6 0) 40001 = _
  rw [setReg_same]
  rfl

theorem main_update_fermenter_input_cell (s : ServerState) (id : String)
    (d : FermenterData) (idx : ℕ) (h : lookupFermenter s.fermenters id = some idx)
    (i : ℕ) (hi : i < 10) :
    (MainServer.update_fermenter_data s id d).input (fermenterBase idx + (i : ℤ))
      = (fermenterRegisters d).getD i 0 := by
  rw [main_update_fermenter_data_of_some s id d idx h]
  show writeSeq s.input (fermenterBase idx) (fermenterRegisters d) (fermenterBase idx + (i : ℤ))
    = (fermenterRegisters d).getD i 0
  rw [writeSeq_in _ _ _ _ (by omega) (by rw [fermenterRegisters_length]; push_cast; omega)]
  congr 1
  omega

theorem main_update_fermenter_holding_cell (s : ServerState) (id : String)
    (d : FermenterData) (idx : ℕ) (h : lookupFermenter s.fermenters id = some idx) :
    (MainServer.update_fermenter_data s id d).holding (40001 + (idx : ℤ))
      = pyInt ((d.setpoint.getD 0) * 10) := by
  rw [main_update_fermenter_data_of_some s id d idx h]
  show setReg s.holding (40001 + (idx : ℤ)) ((fermenterRegisters d).getD 1 0)
    (40001 + (idx : ℤ)) = _
  rw [setReg_same]
  rfl

theorem debug_update_chiller_input_cell (s : ServerState) (d : ChillerData)
    (i : ℕ) (hi : i < 10) (hne : i ≠ 1) :
    (DebugServer.update_chiller_data s d).input (CHILLER_BASE + (i : ℤ))
      = (chillerRegisters (DebugServer.effectiveChillerData (s.holding 40001) d)).getD i 0 := by
  rw [debug_update_chiller_data_eq]
  show setReg
      (writeSeq s.input CHILLER_BASE
        (chillerRegisters (DebugServer.effectiveChillerData (s.holding 40001) d)))
      30002 _ (CHILLER_BASE + (i : ℤ)) = _
  rw [setReg_other _ _ _ _ (by rw [CHILLER_BASE_eq]; omega)]
  rw [writeSeq_in _ _ _ _ (by omega) (by rw [chillerRegisters_length]; push_cast; omega)]
  congr 1
  omega

theorem debug_update_chiller_input_cell_one (s : ServerState) (d : ChillerData) :
    (DebugServer.update_chiller_data s d).input (CHILLER_BASE + 1)
      = pyInt (((DebugServer.effectiveChillerData (s.holding 40001) d).setpoint.getD 0) * 10) := by
  have haddr : CHILLER_BASE + 1 = (30002 : ℤ) := by rw [CHILLER_BASE_eq]; norm_num
  rw [debug_update_chiller_data_eq, haddr]
  show setReg
      (writeSeq s.input CHILLER_BASE
        (chillerRegisters (DebugServer.effectiveChillerData (s.holding 40001) d)))
      30002
      (pyInt (((DebugServer.effectiveChillerData (s.holding 40001) d).setpoint.getD 0) * 10))
      30002
    = pyInt (((DebugServer.effectiveChillerData (s.holding 40001) d).setpoint.getD 0) * 10)
  rw [setReg_same]

theorem DebugServer.update_chiller_holding_preserved (s : ServerState) (d : ChillerData)
    (h0 : s.holding 40001 ≠ 0) (h20 : s.holding 40001 ≠ 20) :
    (DebugServer.update_chiller_data s d).holding = s.holding := by
  rw [debug_update_chiller_data_eq]
  show (if s.holding 40001 = 0 ∨ s.holding 40001 = 20 then _ else s.holding) = s.holding
  rw [if_neg (by tauto)]

theorem debug_update_fermenter_input_cell (s : ServerState) (id : String)
    (d : FermenterData) (idx : ℕ) (h : lookupFermenter s.fermenters id = some idx)
    (i : ℕ) (hi : i < 10) :
    (DebugServer.update_fermenter_data s id d).input (fermenterBase idx + (i : ℤ))
      = (fermenterRegisters
          (DebugServer.effectiveFermenterData (s.holding (40001 + (idx : ℤ))) d)).getD i 0 := by
  rw [debug_update_fermenter_data_of_some s id d idx h]
  show writeSeq s.input (fermenterBase idx) _ (fermenterBase idx + (i : ℤ)) = _
  rw [writeSeq_in _ _ _ _ (by omega) (by rw [fermenterRegisters_length]; push_cast; omega)]
  congr 1
  omega

theorem debug_update_fermenter_holding_cell (s : ServerState) (id : String)
    (d : FermenterData) (idx : ℕ) (h : lookupFermenter s.fermenters id = some idx) :
    (DebugServer.update_fermenter_data s id d).holding (40001 + (idx : ℤ))
      = pyInt (((DebugServer.effectiveFermenterData (s.holding (40001 + (idx : ℤ))) d).setpoint.getD 0)
          * 10) := by
  rw [debug_update_fermenter_data_of_some s id d idx h]
  show setReg s.holding (40001 + (idx : ℤ)) _ (40001 + (idx : ℤ)) = _
  rw [setReg_same]
  rfl

theorem DebugServer.update_fermenter_mirror_preserved (s : ServerState) (id : String)
    (d : FermenterData) (idx : ℕ) (h : lookupFermenter s.fermenters id = some idx)
    (h0 : s.holding (40001 + (idx : ℤ)) ≠ 0) :
    (DebugServer.update_fermenter_data s id d).holding (40001 + (idx : ℤ))
      = s.holding (40001 + (idx : ℤ)) := by
  rw [debug_update_fermenter_holding_cell s id d idx h]
  exact DebugServer.effective_fermenter_scaled _ d h0

/-! ## Further helpers: default block, removal, zero mirror, setpoint lookup -/

theorem add_fermenter_input_cell (s : ServerState) (id : String)
    (h : lookupFermenter s.fermenters id = none) (i : ℕ) (hi : i < 10) :
    (add_fermenter s id).input
        (fermenterBase (lowestFree (usedIndices s.fermenters)) + (i : ℤ))
      = defaultFermenterBlock.getD i 0 := by
  rw [add_fermenter_of_none s id h]
  show writeSeq s.input (fermenterBase (lowestFree (usedIndices s.fermenters)))
      defaultFermenterBlock
      (fermenterBase (lowestFree (usedIndices s.fermenters)) + (i : ℤ))
    = defaultFermenterBlock.getD i 0
  rw [writeSeq_in _ _ _ _ (by omega) (by rw [defaultFermenterBlock_length]; push_cast; omega)]
  congr 1
  omega

theorem replicate_getD_zero (n i : ℕ) : (List.replicate n (0 : ℤ)).getD i 0 = 0 := by
  induction n generalizing i with
  | zero => simp
  | succ n ih =>
    cases i with
    | zero => simp [List.replicate_succ]
    | succ i =>
      rw [List.replicate_succ, List.getD_cons_succ]
      exact ih i

theorem remove_fermenter_input_in (s : ServerState) (id : String) (idx : ℕ)
    (h : lookupFermenter s.fermenters id = some idx) (i : ℕ) (hi : i < 10) :
    (remove_fermenter s id).input (fermenterBase idx + (i : ℤ)) = 0 := by
  rw [remove_fermenter_of_some s id idx h]
  show writeSeq s.input (fermenterBase idx) (List.replicate 10 0)
      (fermenterBase idx + (i : ℤ)) = 0
  rw [writeSeq_in _ _ _ _ (by omega)
    (by rw [List.length_replicate]; push_cast; omega)]
  exact replicate_getD_zero 10 _

theorem remove_fermenter_input_out (s : ServerState) (id : String) (idx : ℕ)
    (h : lookupFermenter s.fermenters id = some idx) (a : ℤ)
    (ha : a < fermenterBase idx ∨ fermenterBase idx + 10 ≤ a) :
    (remove_fermenter s id).input a = s.input a := by
  rw [remove_fermenter_of_some s id idx h]
  show writeSeq s.input (fermenterBase idx) (List.replicate 10 0) a = s.input a
  exact writeSeq_out _ _ _ _ (by rw [List.length_replicate]; push_cast; omega)

theorem DebugServer.effectiveChillerData_zero (d : ChillerData) :
    DebugServer.effectiveChillerData 0 d = d := by
  unfold DebugServer.effectiveChillerData
  rw [if_neg]
  simp

theorem DebugServer.update_chiller_holding_of_zero (s : ServerState) (d : ChillerData)
    (h : s.holding 40001 = 0) :
    (DebugServer.update_chiller_data s d).holding 40001 = pyInt ((d.setpoint.getD 0) * 10) := by
  rw [debug_update_chiller_data_eq]
  show (if s.holding 40001 = 0 ∨ s.holding 40001 = 20 then
      setReg s.holding 40001
        (pyInt (((DebugServer.effectiveChillerData (s.holding 40001) d).setpoint.getD 0) * 10))
    else s.holding) 40001 = pyInt ((d.setpoint.getD 0) * 10)
  rw [if_pos (Or.inl h), setReg_same, h, DebugServer.effectiveChillerData_zero]

theorem findSetpoint_read_setpoints (s : ServerState) (id : String) (idx : ℕ)
    (h : lookupFermenter s.fermenters id = some idx) :
    findSetpoint (read_setpoints s).2 id
      = some (((s.holding (40001 + (idx : ℤ)) : ℤ) : ℚ) / 10) := by
  unfold lookupFermenter at h
  rcases Option.map_eq_some'.mp h with ⟨p, hp, hpe⟩
  unfold findSetpoint read_setpoints
  rw [List.find?_map]
  have hpred :
      ((fun q : String × ℚ => q.1 == id) ∘
        (fun q : String × ℕ => (q.1, ((s.holding (40001 + (q.2 : ℤ)) : ℤ) : ℚ) / 10)))
      = (fun q : String × ℕ => q.1 == id) := rfl
  rw [hpred, hp]
  simp [hpe]

/-! ## Claim C1 -/

/-- C1, counterexample: the claim includes `update_chiller_data` of
`src/main.py`, but that function mirrors the scaled setpoint to holding
register 40001 unconditionally.  Starting from a mirror holding 25 (neither
0 nor 20), a call with setpoint 2.0 overwrites the mirror with 20. -/
theorem claimC1_counterexample :
    (gatewayWriteHolding initialState 40001 25).holding 40001 = 25 ∧
    (25 : ℤ) ≠ 0 ∧ (25 : ℤ) ≠ 20 ∧
    (MainServer.update_chiller_data (gatewayWriteHolding initialState 40001 25)
        { setpoint := some 2 }).holding 40001 = 20 := by
  refine ⟨?_, by norm_num, by norm_num, ?_⟩
  · norm_num [gatewayWriteHolding, initialState, setReg]
  · rw [MainServer.update_chiller_holding_cell]
    norm_num [pyInt, rat_floor_eq_intFloor]

/-- C1, amended: in `src/debug_server.py`, both `update_chiller_data` and
`update_fermenter_data` leave a setpoint mirror holding a value other than 0
and 20 unchanged; in `src/main.py`, both update functions instead overwrite
the mirror unconditionally with the scaled setpoint from `fields`. -/
theorem claimC1_amended :
    (∀ (s : ServerState) (d : ChillerData),
        s.holding 40001 ≠ 0 → s.holding 40001 ≠ 20 →
        (DebugServer.update_chiller_data s d).holding 40001 = s.holding 40001) ∧
    (∀ (s : ServerState) (id : String) (d : FermenterData) (idx : ℕ),
        lookupFermenter s.fermenters id = some idx →
        s.holding (40001 + (idx : ℤ)) ≠ 0 → s.holding (40001 + (idx : ℤ)) ≠ 20 →
        (DebugServer.update_fermenter_data s id d).holding (40001 + (idx : ℤ))
          = s.holding (40001 + (idx : ℤ))) ∧
    (∀ (s : ServerState) (d : ChillerData),
        (MainServer.update_chiller_data s d).holding 40001
          = pyInt ((d.setpoint.getD 0) * 10)) ∧
    (∀ (s : ServerState) (id : String) (d : FermenterData) (idx : ℕ),
        lookupFermenter s.fermenters id = some idx →
        (MainServer.update_fermenter_data s id d).holding (40001 + (idx : ℤ))
          = pyInt ((d.setpoint.getD 0) * 10)) := by
  refine ⟨?_, ?_, ?_, ?_⟩
  · intro s d h0 h20
    rw [DebugServer.update_chiller_holding_preserved s d h0 h20]
  · intro s id d idx h h0 _h20
    exact DebugServer.update_fermenter_mirror_preserved s id d idx h h0
  · intro s d
    exact MainServer.update_chiller_holding_cell s d
  · intro s id d idx h
    exact main_update_fermenter_holding_cell s id d idx h

/-- C1, witness for the amended theorem: a mirror holding 25 survives a
`src/debug_server.py` chiller update with setpoint 2.0. -/
theorem claimC1_witness :
    (gatewayWriteHolding initialState 40001 25).holding 40001 ≠ 0 ∧
    (gatewayWriteHolding initialState 40001 25).holding 40001 ≠ 20 ∧
    (DebugServer.update_chiller_data (gatewayWriteHolding initialState 40001 25)
        { setpoint := some 2 }).holding 40001
      = (gatewayWriteHolding initialState 40001 25).holding 40001 := by
  have h0 : (gatewayWriteHolding initialState 40001 25).holding 40001 = 25 := by
    norm_num [gatewayWriteHolding, initialState, setReg]
  exact ⟨by rw [h0]; norm_num, by rw [h0]; norm_num,
    claimC1_amended.1 _ { setpoint := some 2 } (by rw [h0]; norm_num) (by rw [h0]; norm_num)⟩

/-! ## Claim C2 -/

/-- C2: setpoint-precedence scenario on `src/debug_server.py`.  From a mirror
holding the default 0, a chiller update with setpoint 2.0 leaves holding
register 40001 at 20; after a gateway writes 25 there, the next chiller update
with setpoint 2.0 leaves 40001 at 25 and `read_setpoints()` reports a chiller
setpoint of 2.5. -/
theorem claimC2 (s : ServerState) (d d' : ChillerData)
    (h : s.holding 40001 = 0) (hd : d.setpoint = some 2) (hd' : d'.setpoint = some 2) :
    (DebugServer.update_chiller_data s d).holding 40001 = 20 ∧
    (DebugServer.update_chiller_data
        (gatewayWriteHolding (DebugServer.update_chiller_data s d) 40001 25) d').holding 40001
      = 25 ∧
    (read_setpoints
        (DebugServer.update_chiller_data
          (gatewayWriteHolding (DebugServer.update_chiller_data s d) 40001 25) d')).1
      = 2.5 := by
  have h1 : (DebugServer.update_chiller_data s d).holding 40001 = 20 := by
    rw [DebugServer.update_chiller_holding_of_zero s d h, hd]
    norm_num [pyInt, rat_floor_eq_intFloor]
  have h2 : (gatewayWriteHolding (DebugServer.update_chiller_data s d) 40001 25).holding 40001
      = 25 := by
    norm_num [gatewayWriteHolding, setReg]
  have h3 : (DebugServer.update_chiller_data
      (gatewayWriteHolding (DebugServer.update_chiller_data s d) 40001 25) d').holding
      = (gatewayWriteHolding (DebugServer.update_chiller_data s d) 40001 25).holding :=
    DebugServer.update_chiller_holding_preserved _ d' (by rw [h2]; norm_num)
      (by rw [h2]; norm_num)
  refine ⟨h1, ?_, ?_⟩
  · rw [h3, h2]
  · show (((DebugServer.update_chiller_data
        (gatewayWriteHolding (DebugServer.update_chiller_data s d) 40001 25) d').holding 40001
        : ℤ) : ℚ) / 10 = 2.5
    rw [h3, h2]
    norm_num

/-- C2, witness: the scenario instantiated at the freshly constructed server
with the simulated chiller data carrying setpoint 2.0. -/
theorem claimC2_witness :
    initialState.holding 40001 = 0 ∧
    ((DebugServer.update_chiller_data initialState { setpoint := some 2 }).holding 40001 = 20 ∧
     (DebugServer.update_chiller_data
        (gatewayWriteHolding
          (DebugServer.update_chiller_data initialState { setpoint := some 2 }) 40001 25)
        { setpoint := some 2 }).holding 40001 = 25 ∧
     (read_setpoints
        (DebugServer.update_chiller_data
          (gatewayWriteHolding
            (DebugServer.update_chiller_data initialState { setpoint := some 2 }) 40001 25)
          { setpoint := some 2 })).1 = 2.5) :=
  ⟨rfl, claimC2 initialState { setpoint := some 2 } { setpoint := some 2 } rfl rfl rfl⟩

/-! ## Claim C3 -/

/-- C3: gateway override rule in `src/debug_server.py`.  When the slot's
mirror value M is non-zero and differs from `int(fields.setpoint * 10)`,
the call replaces `fields.setpoint` with `M / 10` and the Input-space
setpoint cell of the block ends up holding M. -/
theorem claimC3 :
    (∀ (cur : ℤ) (d : ChillerData), cur ≠ 0 → cur ≠ pyInt ((d.setpoint.getD 0) * 10) →
        DebugServer.effectiveChillerData cur d = { d with setpoint := some ((cur : ℚ) / 10) }) ∧
    (∀ (cur : ℤ) (d : FermenterData), cur ≠ 0 → cur ≠ pyInt ((d.setpoint.getD 0) * 10) →
        DebugServer.effectiveFermenterData cur d = { d with setpoint := some ((cur : ℚ) / 10) }) ∧
    (∀ (s : ServerState) (d : ChillerData),
        s.holding 40001 ≠ 0 → s.holding 40001 ≠ pyInt ((d.setpoint.getD 0) * 10) →
        (DebugServer.update_chiller_data s d).input (CHILLER_BASE + 6) = s.holding 40001) ∧
    (∀ (s : ServerState) (id : String) (d : FermenterData) (idx : ℕ),
        lookupFermenter s.fermenters id = some idx →
        s.holding (40001 + (idx : ℤ)) ≠ 0 →
        s.holding (40001 + (idx : ℤ)) ≠ pyInt ((d.setpoint.getD 0) * 10) →
        (DebugServer.update_fermenter_data s id d).input (fermenterBase idx + 1)
          = s.holding (40001 + (idx : ℤ))) := by
  refine ⟨?_, ?_, ?_, ?_⟩
  · intro cur d h0 hne
    unfold DebugServer.effectiveChillerData
    rw [if_pos ⟨h0, hne⟩]
  · intro cur d h0 hne
    unfold DebugServer.effectiveFermenterData
    rw [if_pos ⟨h0, hne⟩]
  · intro s d h0 _hne
    calc (DebugServer.update_chiller_data s d).input (CHILLER_BASE + 6)
        = (chillerRegisters (DebugServer.effectiveChillerData (s.holding 40001) d)).getD 6 0 := by
          have hc := debug_update_chiller_input_cell s d 6 (by norm_num) (by norm_num)
          push_cast at hc
          exact hc
      _ = pyInt (((DebugServer.effectiveChillerData (s.holding 40001) d).setpoint.getD 0) * 10) :=
          rfl
      _ = s.holding 40001 := DebugServer.effective_chiller_scaled _ d h0
  · intro s id d idx h h0 _hne
    calc (DebugServer.update_fermenter_data s id d).input (fermenterBase idx + 1)
        = (fermenterRegisters
            (DebugServer.effectiveFermenterData (s.holding (40001 + (idx : ℤ))) d)).getD 1 0 := by
          have hc := debug_update_fermenter_input_cell s id d idx h 1 (by norm_num)
          push_cast at hc
          exact hc
      _ = pyInt (((DebugServer.effectiveFermenterData (s.holding (40001 + (idx : ℤ)))
            d).setpoint.getD 0) * 10) := rfl
      _ = s.holding (40001 + (idx : ℤ)) := DebugServer.effective_fermenter_scaled _ d h0

/-- C3, witness: a mirror holding 25 against simulated setpoint 2.0 makes
the chiller's Input-space setpoint cell (30007) read 25. -/
theorem claimC3_witness :
    (gatewayWriteHolding initialState 40001 25).holding 40001 ≠ 0 ∧
    (gatewayWriteHolding initialState 40001 25).holding 40001
      ≠ pyInt (((({ setpoint := some 2 } : ChillerData)).setpoint.getD 0) * 10) ∧
    (DebugServer.update_chiller_data (gatewayWriteHolding initialState 40001 25)
        ({ setpoint := some 2 } : ChillerData)).input (CHILLER_BASE + 6)
      = (gatewayWriteHolding initialState 40001 25).holding 40001 := by
  have h0 : (gatewayWriteHolding initialState 40001 25).holding 40001 = 25 := by
    norm_num [gatewayWriteHolding, initialState, setReg]
  have hp : pyInt (((({ setpoint := some 2 } : ChillerData)).setpoint.getD 0) * 10) = 20 := by
    norm_num [pyInt, rat_floor_eq_intFloor]
  exact ⟨by rw [h0]; norm_num, by rw [h0, hp]; norm_num,
    claimC3.2.2.1 _ _ (by rw [h0]; norm_num) (by rw [h0, hp]; norm_num)⟩

/-! ## Claim C4 -/

/-- C4: `add_fermenter` allocates the smallest unused slot index, records the
mapping, and writes the documented default block to Input space at
`FERMENTER_BASE + index * 10`; adding an already-registered id is a no-op.
After add FV001, add FV002, remove FV001, a new add FV003 lands in slot 0. -/
theorem claimC4 :
    (∀ (s : ServerState) (id : String),
        lookupFermenter s.fermenters id = none →
        lookupFermenter (add_fermenter s id).fermenters id
            = some (lowestFree (usedIndices s.fermenters)) ∧
        lowestFree (usedIndices s.fermenters) ∉ usedIndices s.fermenters ∧
        (∀ j, j < lowestFree (usedIndices s.fermenters) → j ∈ usedIndices s.fermenters) ∧
        (∀ i : ℕ, i < 10 →
          (add_fermenter s id).input
              (fermenterBase (lowestFree (usedIndices s.fermenters)) + (i : ℤ))
            = defaultFermenterBlock.getD i 0)) ∧
    (∀ (s : ServerState) (id : String),
        (lookupFermenter s.fermenters id).isSome → add_fermenter s id = s) ∧
    lookupFermenter
        (add_fermenter (remove_fermenter
          (add_fermenter (add_fermenter initialState "FV001") "FV002") "FV001")
          "FV003").fermenters "FV003" = some 0 := by
  refine ⟨?_, ?_, ?_⟩
  · intro s id h
    obtain ⟨hfree, hmin⟩ := lowestFree_spec (usedIndices s.fermenters)
    exact ⟨add_fermenter_lookup_self s id h, hfree, hmin,
      fun i hi => add_fermenter_input_cell s id h i hi⟩
  · intro s id h
    exact add_fermenter_of_some s id h
  · decide

/-- C4, witness: on the fresh server, FV001 is assigned slot 0 and its
return-temperature default 80 lands at offset 3 of the block. -/
theorem claimC4_witness :
    lookupFermenter initialState.fermenters "FV001" = none ∧
    lookupFermenter (add_fermenter initialState "FV001").fermenters "FV001" = some 0 ∧
    (add_fermenter initialState "FV001").input (fermenterBase 0 + 3) = 80 := by
  refine ⟨rfl, ?_, ?_⟩
  · exact (claimC4.1 initialState "FV001" rfl).1
  · have h := (claimC4.1 initialState "FV001" rfl).2.2.2 3 (by norm_num)
    simpa [initialState, usedIndices, lowestFree, firstFreeFrom, defaultFermenterBlock] using h

/-! ## Claim C5 -/

/-- C5: `remove_fermenter` on a registered id zeroes exactly the 10 Input
cells of that fermenter's block, removes the id from the registry, and leaves
every other register cell in every space and every other fermenter's mapping
unchanged; on an unregistered id it changes nothing.  (The registry of a
Python dict has unique keys, embedded here as the Nodup hypothesis.) -/
theorem claimC5 :
    (∀ (s : ServerState) (id : String) (idx : ℕ),
        (s.fermenters.map Prod.fst).Nodup →
        lookupFermenter s.fermenters id = some idx →
        (∀ i : ℕ, i < 10 → (remove_fermenter s id).input (fermenterBase idx + (i : ℤ)) = 0) ∧
        (∀ a : ℤ, a < fermenterBase idx ∨ fermenterBase idx + 10 ≤ a →
            (remove_fermenter s id).input a = s.input a) ∧
        (remove_fermenter s id).holding = s.holding ∧
        (remove_fermenter s id).coils = s.coils ∧
        (remove_fermenter s id).discrete = s.discrete ∧
        lookupFermenter (remove_fermenter s id).fermenters id = none ∧
        (∀ id2 : String, id2 ≠ id →
            lookupFermenter (remove_fermenter s id).fermenters id2
              = lookupFermenter s.fermenters id2)) ∧
    (∀ (s : ServerState) (id : String),
        lookupFermenter s.fermenters id = none → remove_fermenter s id = s) := by
  refine ⟨?_, ?_⟩
  · intro s id idx hnd h
    refine ⟨fun i hi => remove_fermenter_input_in s id idx h i hi,
      fun a ha => remove_fermenter_input_out s id idx h a ha, ?_, ?_, ?_, ?_, ?_⟩
    · rw [remove_fermenter_of_some s id idx h]
    · rw [remove_fermenter_of_some s id idx h]
    · rw [remove_fermenter_of_some s id idx h]
    · rw [remove_fermenter_of_some s id idx h]
      exact lookupFermenter_eraseP_self s.fermenters id idx hnd h
    · intro id2 hne
      rw [remove_fermenter_of_some s id idx h]
      exact lookupFermenter_eraseP_other s.fermenters id id2 hne
  · intro s id h
    exact remove_fermenter_of_none s id h

/-- C5, witness: removing FV001 from the one-fermenter server zeroes its
setpoint cell, drops it from the registry, and leaves holding space alone. -/
theorem claimC5_witness :
    ((add_fermenter initialState "FV001").fermenters.map Prod.fst).Nodup ∧
    lookupFermenter (add_fermenter initialState "FV001").fermenters "FV001" = some 0 ∧
    (remove_fermenter (add_fermenter initialState "FV001") "FV001").input
        (fermenterBase 0 + 1) = 0 ∧
    lookupFermenter
        (remove_fermenter (add_fermenter initialState "FV001") "FV001").fermenters "FV001"
      = none ∧
    (remove_fermenter (add_fermenter initialState "FV001") "FV001").holding
      = (add_fermenter initialState "FV001").holding := by
  have hnd : ((add_fermenter initialState "FV001").fermenters.map Prod.fst).Nodup := by
    decide
  have hl : lookupFermenter (add_fermenter initialState "FV001").fermenters "FV001"
      = some 0 := by decide
  obtain ⟨hin, _, hhold, _, _, hself, _⟩ :=
    claimC5.1 (add_fermenter initialState "FV001") "FV001" 0 hnd hl
  refine ⟨hnd, hl, ?_, hself, hhold⟩
  have h := hin 1 (by norm_num)
  push_cast at h
  exact h

/-! ## Claim C6 -/

/-- C6, counterexample: in `src/debug_server.py`, `update_chiller_data`
overwrites cell 30002 (CHILLER_BASE + 1) with the scaled setpoint after the
block write, so with supply_temp 2.3 and setpoint 2.0 the cell reads 20,
not `int(supply_temp * 10) = 23`. -/
theorem claimC6_counterexample :
    (DebugServer.update_chiller_data initialState
        ({ supply_temp := some (23 / 10), setpoint := some 2 } : ChillerData)).input
        (CHILLER_BASE + 1) = 20 ∧
    pyInt (((({ supply_temp := some (23 / 10), setpoint := some 2 }
        : ChillerData)).supply_temp.getD 0) * 10) = 23 := by
  constructor
  · rw [debug_update_chiller_input_cell_one]
    rw [show initialState.holding 40001 = (0 : ℤ) from rfl,
      DebugServer.effectiveChillerData_zero]
    norm_num [pyInt, rat_floor_eq_intFloor]
  · norm_num [pyInt, rat_floor_eq_intFloor]

/-- C6, amended: in `src/main.py` every chiller Input cell holds its
documented field at its documented scale (cell 30002 holds
`int(supply_temp * 10)`, cell CHILLER_BASE+6 the scaled setpoint).  In
`src/debug_server.py` the cells hold the effective fields — the setpoint
possibly replaced by the gateway mirror value, every other field unchanged —
except that cell CHILLER_BASE+1 is overwritten with the scaled effective
setpoint instead of the supply temperature. -/
theorem claimC6_amended :
    (∀ (s : ServerState) (d : ChillerData),
      (MainServer.update_chiller_data s d).input (CHILLER_BASE + 0)
          = pyInt ((d.reservoir_temp.getD 0) * 10) ∧
      (MainServer.update_chiller_data s d).input (CHILLER_BASE + 1)
          = pyInt ((d.supply_temp.getD 0) * 10) ∧
      (MainServer.update_chiller_data s d).input (CHILLER_BASE + 2)
          = pyInt ((d.return_temp.getD 0) * 10) ∧
      (MainServer.update_chiller_data s d).input (CHILLER_BASE + 3)
          = (if d.compressor_running.getD false then 1 else 0) ∧
      (MainServer.update_chiller_data s d).input (CHILLER_BASE + 4)
          = pyInt (d.compressor_power.getD 0) ∧
      (MainServer.update_chiller_data s d).input (CHILLER_BASE + 5)
          = pyInt (d.total_heat_load.getD 0) ∧
      (MainServer.update_chiller_data s d).input (CHILLER_BASE + 6)
          = pyInt ((d.setpoint.getD 0) * 10) ∧
      (MainServer.update_chiller_data s d).input (CHILLER_BASE + 7)
          = pyInt ((d.efficiency.getD 0) * 10) ∧
      (MainServer.update_chiller_data s d).input (CHILLER_BASE + 8)
          = d.alarm_status.getD 0 ∧
      (MainServer.update_chiller_data s d).input (CHILLER_BASE + 9)
          = d.system_status.getD 1) ∧
    (∀ (s : ServerState) (d : ChillerData),
      (DebugServer.update_chiller_data s d).input (CHILLER_BASE + 0)
          = pyInt (((DebugServer.effectiveChillerData (s.holding 40001) d).reservoir_temp.getD 0)
              * 10) ∧
      (DebugServer.update_chiller_data s d).input (CHILLER_BASE + 1)
          = pyInt (((DebugServer.effectiveChillerData (s.holding 40001) d).setpoint.getD 0)
              * 10) ∧
      (DebugServer.update_chiller_data s d).input (CHILLER_BASE + 2)
          = pyInt (((DebugServer.effectiveChillerData (s.holding 40001) d).return_temp.getD 0)
              * 10) ∧
      (DebugServer.update_chiller_data s d).input (CHILLER_BASE + 3)
          = (if (DebugServer.effectiveChillerData (s.holding 40001) d).compressor_running.getD
                false then 1 else 0) ∧
      (DebugServer.update_chiller_data s d).input (CHILLER_BASE + 4)
          = pyInt ((DebugServer.effectiveChillerData (s.holding 40001) d).compressor_power.getD
              0) ∧
      (DebugServer.update_chiller_data s d).input (CHILLER_BASE + 5)
          = pyInt ((DebugServer.effectiveChillerData (s.holding 40001) d).total_heat_load.getD
              0) ∧
      (DebugServer.update_chiller_data s d).input (CHILLER_BASE + 6)
          = pyInt (((DebugServer.effectiveChillerData (s.holding 40001) d).setpoint.getD 0)
              * 10) ∧
      (DebugServer.update_chiller_data s d).input (CHILLER_BASE + 7)
          = pyInt (((DebugServer.effectiveChillerData (s.holding 40001) d).efficiency.getD 0)
              * 10) ∧
      (DebugServer.update_chiller_data s d).input (CHILLER_BASE + 8)
          = (DebugServer.effectiveChillerData (s.holding 40001) d).alarm_status.getD 0 ∧
      (DebugServer.update_chiller_data s d).input (CHILLER_BASE + 9)
          = (DebugServer.effectiveChillerData (s.holding 40001) d).system_status.getD 1) ∧
    (∀ (cur : ℤ) (d : ChillerData),
      (DebugServer.effectiveChillerData cur d).reservoir_temp = d.reservoir_temp ∧
      (DebugServer.effectiveChillerData cur d).supply_temp = d.supply_temp ∧
      (DebugServer.effectiveChillerData cur d).return_temp = d.return_temp ∧
      (DebugServer.effectiveChillerData cur d).compressor_running = d.compressor_running ∧
      (DebugServer.effectiveChillerData cur d).compressor_power = d.compressor_power ∧
      (DebugServer.effectiveChillerData cur d).total_heat_load = d.total_heat_load ∧
      (DebugServer.effectiveChillerData cur d).efficiency = d.efficiency ∧
      (DebugServer.effectiveChillerData cur d).alarm_status = d.alarm_status ∧
      (DebugServer.effectiveChillerData cur d).system_status = d.system_status) := by
  refine ⟨?_, ?_, ?_⟩
  · intro s d
    exact ⟨main_update_chiller_input_cell s d 0 (by norm_num),
      main_update_chiller_input_cell s d 1 (by norm_num),
      main_update_chiller_input_cell s d 2 (by norm_num),
      main_update_chiller_input_cell s d 3 (by norm_num),
      main_update_chiller_input_cell s d 4 (by norm_num),
      main_update_chiller_input_cell s d 5 (by norm_num),
      main_update_chiller_input_cell s d 6 (by norm_num),
      main_update_chiller_input_cell s d 7 (by norm_num),
      main_update_chiller_input_cell s d 8 (by norm_num),
      main_update_chiller_input_cell s d 9 (by norm_num)⟩
  · intro s d
    exact ⟨debug_update_chiller_input_cell s d 0 (by norm_num) (by norm_num),
      debug_update_chiller_input_cell_one s d,
      debug_update_chiller_input_cell s d 2 (by norm_num) (by norm_num),
      debug_update_chiller_input_cell s d 3 (by norm_num) (by norm_num),
      debug_update_chiller_input_cell s d 4 (by norm_num) (by norm_num),
      debug_update_chiller_input_cell s d 5 (by norm_num) (by norm_num),
      debug_update_chiller_input_cell s d 6 (by norm_num) (by norm_num),
      debug_update_chiller_input_cell s d 7 (by norm_num) (by norm_num),
      debug_update_chiller_input_cell s d 8 (by norm_num) (by norm_num),
      debug_update_chiller_input_cell s d 9 (by norm_num) (by norm_num)⟩
  · intro cur d
    unfold DebugServer.effectiveChillerData
    split <;> exact ⟨rfl, rfl, rfl, rfl, rfl, rfl, rfl, rfl, rfl⟩

/-! ## Claim C7 -/

/-- C7, counterexample: in `src/main.py`, an `update_chiller_data` call with
an empty data dict writes 1 (not 0) to the system_status cell, because the
code uses `data.get('system_status', 1)`. -/
theorem claimC7_counterexample :
    (MainServer.update_chiller_data initialState ({} : ChillerData)).input
        (CHILLER_BASE + 9) = 1 ∧
    (1 : ℤ) ≠ 0 := by
  refine ⟨?_, by norm_num⟩
  exact main_update_chiller_input_cell initialState {} 9 (by norm_num)

/-- C7, amended: in `src/main.py`, any field omitted from the update data is
encoded into its register cell as 0 (false as 0), except the chiller's
`system_status` and the fermenter's `status`, which default to 1. -/
theorem claimC7_amended :
    (∀ (s : ServerState) (d : ChillerData),
      (d.reservoir_temp = none →
        (MainServer.update_chiller_data s d).input (CHILLER_BASE + 0) = 0) ∧
      (d.supply_temp = none →
        (MainServer.update_chiller_data s d).input (CHILLER_BASE + 1) = 0) ∧
      (d.return_temp = none →
        (MainServer.update_chiller_data s d).input (CHILLER_BASE + 2) = 0) ∧
      (d.compressor_running = none →
        (MainServer.update_chiller_data s d).input (CHILLER_BASE + 3) = 0) ∧
      (d.compressor_power = none →
        (MainServer.update_chiller_data s d).input (CHILLER_BASE + 4) = 0) ∧
      (d.total_heat_load = none →
        (MainServer.update_chiller_data s d).input (CHILLER_BASE + 5) = 0) ∧
      (d.setpoint = none →
        (MainServer.update_chiller_data s d).input (CHILLER_BASE + 6) = 0) ∧
      (d.efficiency = none →
        (MainServer.update_chiller_data s d).input (CHILLER_BASE + 7) = 0) ∧
      (d.alarm_status = none →
        (MainServer.update_chiller_data s d).input (CHILLER_BASE + 8) = 0) ∧
      (d.system_status = none →
        (MainServer.update_chiller_data s d).input (CHILLER_BASE + 9) = 1)) ∧
    (∀ (s : ServerState) (id : String) (d : FermenterData) (idx : ℕ),
      lookupFermenter s.fermenters id = some idx →
      (d.current_temp = none →
        (MainServer.update_fermenter_data s id d).input (fermenterBase idx + 0) = 0) ∧
      (d.setpoint = none →
        (MainServer.update_fermenter_data s id d).input (fermenterBase idx + 1) = 0) ∧
      (d.supply_temp = none →
        (MainServer.update_fermenter_data s id d).input (fermenterBase idx + 2) = 0) ∧
      (d.return_temp = none →
        (MainServer.update_fermenter_data s id d).input (fermenterBase idx + 3) = 0) ∧
      (d.cooling_active = none →
        (MainServer.update_fermenter_data s id d).input (fermenterBase idx + 4) = 0) ∧
      (d.duty_cycle = none →
        (MainServer.update_fermenter_data s id d).input (fermenterBase idx + 5) = 0) ∧
      (d.heat_load_to_chiller = none →
        (MainServer.update_fermenter_data s id d).input (fermenterBase idx + 6) = 0) ∧
      (d.fermentation_heat = none →
        (MainServer.update_fermenter_data s id d).input (fermenterBase idx + 7) = 0) ∧
      (d.alarm_status = none →
        (MainServer.update_fermenter_data s id d).input (fermenterBase idx + 8) = 0) ∧
      (d.status = none →
        (MainServer.update_fermenter_data s id d).input (fermenterBase idx + 9) = 1)) := by
  constructor
  · intro s d
    refine ⟨fun h => ?_, fun h => ?_, fun h => ?_, fun h => ?_, fun h => ?_, fun h => ?_,
      fun h => ?_, fun h => ?_, fun h => ?_, fun h => ?_⟩
    · have hc := main_update_chiller_input_cell s d 0 (by norm_num)
      rw [show (chillerRegisters d).getD 0 0 = pyInt ((d.reservoir_temp.getD 0) * 10) from rfl,
        h] at hc
      simpa [pyInt_zero] using hc
    · have hc := main_update_chiller_input_cell s d 1 (by norm_num)
      rw [show (chillerRegisters d).getD 1 0 = pyInt ((d.supply_temp.getD 0) * 10) from rfl,
        h] at hc
      simpa [pyInt_zero] using hc
    · have hc := main_update_chiller_input_cell s d 2 (by norm_num)
      rw [show (chillerRegisters d).getD 2 0 = pyInt ((d.return_temp.getD 0) * 10) from rfl,
        h] at hc
      simpa [pyInt_zero] using hc
    · have hc := main_update_chiller_input_cell s d 3 (by norm_num)
      rw [show (chillerRegisters d).getD 3 0
          = (if d.compressor_running.getD false then 1 else 0) from rfl, h] at hc
      simpa using hc
    · have hc := main_update_chiller_input_cell s d 4 (by norm_num)
      rw [show (chillerRegisters d).getD 4 0 = pyInt (d.compressor_power.getD 0) from rfl,
        h] at hc
      simpa [pyInt_zero] using hc
    · have hc := main_update_chiller_input_cell s d 5 (by norm_num)
      rw [show (chillerRegisters d).getD 5 0 = pyInt (d.total_heat_load.getD 0) from rfl,
        h] at hc
      simpa [pyInt_zero] using hc
    · have hc := main_update_chiller_input_cell s d 6 (by norm_num)
      rw [show (chillerRegisters d).getD 6 0 = pyInt ((d.setpoint.getD 0) * 10) from rfl,
        h] at hc
      simpa [pyInt_zero] using hc
    · have hc := main_update_chiller_input_cell s d 7 (by norm_num)
      rw [show (chillerRegisters d).getD 7 0 = pyInt ((d.efficiency.getD 0) * 10) from rfl,
        h] at hc
      simpa [pyInt_zero] using hc
    · have hc := main_update_chiller_input_cell s d 8 (by norm_num)
      rw [show (chillerRegisters d).getD 8 0 = d.alarm_status.getD 0 from rfl, h] at hc
      simpa using hc
    · have hc := main_update_chiller_input_cell s d 9 (by norm_num)
      rw [show (chillerRegisters d).getD 9 0 = d.system_status.getD 1 from rfl, h] at hc
      simpa using hc
  · intro s id d idx hl
    refine ⟨fun h => ?_, fun h => ?_, fun h => ?_, fun h => ?_, fun h => ?_, fun h => ?_,
      fun h => ?_, fun h => ?_, fun h => ?_, fun h => ?_⟩
    · have hc := main_update_fermenter_input_cell s id d idx hl 0 (by norm_num)
      rw [show (fermenterRegisters d).getD 0 0 = pyInt ((d.current_temp.getD 0) * 10) from rfl,
        h] at hc
      simpa [pyInt_zero] using hc
    · have hc := main_update_fermenter_input_cell s id d idx hl 1 (by norm_num)
      rw [show (fermenterRegisters d).getD 1 0 = pyInt ((d.setpoint.getD 0) * 10) from rfl,
        h] at hc
      simpa [pyInt_zero] using hc
    · have hc := main_update_fermenter_input_cell s id d idx hl 2 (by norm_num)
      rw [show (fermenterRegisters d).getD 2 0 = pyInt ((d.supply_temp.getD 0) * 10) from rfl,
        h] at hc
      simpa [pyInt_zero] using hc
    · have hc := main_update_fermenter_input_cell s id d idx hl 3 (by norm_num)
      rw [show (fermenterRegisters d).getD 3 0 = pyInt ((d.return_temp.getD 0) * 10) from rfl,
        h] at hc
      simpa [pyInt_zero] using hc
    · have hc := main_update_fermenter_input_cell s id d idx hl 4 (by norm_num)
      rw [show (fermenterRegisters d).getD 4 0
          = (if d.cooling_active.getD false then 1 else 0) from rfl, h] at hc
      simpa using hc
    · have hc := main_update_fermenter_input_cell s id d idx hl 5 (by norm_num)
      rw [show (fermenterRegisters d).getD 5 0 = pyInt ((d.duty_cycle.getD 0) * 100) from rfl,
        h] at hc
      simpa [pyInt_zero] using hc
    · have hc := main_update_fermenter_input_cell s id d idx hl 6 (by norm_num)
      rw [show (fermenterRegisters d).getD 6 0 = pyInt (d.heat_load_to_chiller.getD 0) from rfl,
        h] at hc
      simpa [pyInt_zero] using hc
    · have hc := main_update_fermenter_input_cell s id d idx hl 7 (by norm_num)
      rw [show (fermenterRegisters d).getD 7 0 = pyInt (d.fermentation_heat.getD 0) from rfl,
        h] at hc
      simpa [pyInt_zero] using hc
    · have hc := main_update_fermenter_input_cell s id d idx hl 8 (by norm_num)
      rw [show (fermenterRegisters d).getD 8 0 = d.alarm_status.getD 0 from rfl, h] at hc
      simpa using hc
    · have hc := main_update_fermenter_input_cell s id d idx hl 9 (by norm_num)
      rw [show (fermenterRegisters d).getD 9 0 = d.status.getD 1 from rfl, h] at hc
      simpa using hc

/-- C7, witness: the fully-empty chiller update on the fresh server puts 0
in the reservoir-temperature cell and 1 in the system-status cell. -/
theorem claimC7_witness :
    (({} : ChillerData)).reservoir_temp = none ∧
    (({} : ChillerData)).system_status = none ∧
    (MainServer.update_chiller_data initialState ({} : ChillerData)).input
        (CHILLER_BASE + 0) = 0 ∧
    (MainServer.update_chiller_data initialState ({} : ChillerData)).input
        (CHILLER_BASE + 9) = 1 :=
  ⟨rfl, rfl, (claimC7_amended.1 initialState {}).1 rfl,
    ((claimC7_amended.1 initialState {}).2.2.2.2.2.2.2.2.2) rfl⟩

/-! ## Claim C8 -/

theorem add_fermenter_holding (s : ServerState) (id : String) :
    (add_fermenter s id).holding = s.holding := by
  unfold add_fermenter
  split <;> rfl

/-- C8: an update for an unregistered fermenter id does not fail: both in
`src/main.py` and `src/debug_server.py` it first registers the id exactly as
`add_fermenter` would (lowest free slot, default block) and then proceeds, so
afterwards the id is registered and its block holds the values the update
computes. -/
theorem claimC8 :
    (∀ (s : ServerState) (id : String) (d : FermenterData),
      lookupFermenter s.fermenters id = none →
      MainServer.update_fermenter_data s id d
          = MainServer.update_fermenter_data (add_fermenter s id) id d ∧
      lookupFermenter (MainServer.update_fermenter_data s id d).fermenters id
          = some (lowestFree (usedIndices s.fermenters)) ∧
      (∀ i : ℕ, i < 10 →
        (MainServer.update_fermenter_data s id d).input
            (fermenterBase (lowestFree (usedIndices s.fermenters)) + (i : ℤ))
          = (fermenterRegisters d).getD i 0)) ∧
    (∀ (s : ServerState) (id : String) (d : FermenterData),
      lookupFermenter s.fermenters id = none →
      DebugServer.update_fermenter_data s id d
          = DebugServer.update_fermenter_data (add_fermenter s id) id d ∧
      lookupFermenter (DebugServer.update_fermenter_data s id d).fermenters id
          = some (lowestFree (usedIndices s.fermenters)) ∧
      (∀ i : ℕ, i < 10 →
        (DebugServer.update_fermenter_data s id d).input
            (fermenterBase (lowestFree (usedIndices s.fermenters)) + (i : ℤ))
          = (fermenterRegisters (DebugServer.effectiveFermenterData
              (s.holding (40001 + ((lowestFree (usedIndices s.fermenters)) : ℤ))) d)).getD
              i 0)) := by
  constructor
  · intro s id d h
    have hadd := add_fermenter_lookup_self s id h
    refine ⟨main_update_fermenter_data_of_none s id d h, ?_, ?_⟩
    · rw [main_update_fermenter_data_of_none s id d h,
        main_update_fermenter_data_of_some _ id d _ hadd]
      exact hadd
    · intro i hi
      rw [main_update_fermenter_data_of_none s id d h]
      exact main_update_fermenter_input_cell _ id d _ hadd i hi
  · intro s id d h
    have hadd := add_fermenter_lookup_self s id h
    refine ⟨debug_update_fermenter_data_of_none s id d h, ?_, ?_⟩
    · rw [debug_update_fermenter_data_of_none s id d h,
        debug_update_fermenter_data_of_some _ id d _ hadd]
      exact hadd
    · intro i hi
      rw [debug_update_fermenter_data_of_none s id d h]
      have hc := debug_update_fermenter_input_cell _ id d _ hadd i hi
      rw [add_fermenter_holding] at hc
      exact hc

/-- C8, witness: updating the never-registered FV001 on a fresh server
registers it in slot 0 and writes the scaled setpoint 30 to its block. -/
theorem claimC8_witness :
    lookupFermenter initialState.fermenters "FV001" = none ∧
    lookupFermenter (MainServer.update_fermenter_data initialState "FV001"
        ({ setpoint := some 3 } : FermenterData)).fermenters "FV001" = some 0 ∧
    (MainServer.update_fermenter_data initialState "FV001"
        ({ setpoint := some 3 } : FermenterData)).input (fermenterBase 0 + 1) = 30 := by
  refine ⟨rfl, ?_, ?_⟩
  · exact (claimC8.1 initialState "FV001" ({ setpoint := some 3 } : FermenterData) rfl).2.1
  · have hc := (claimC8.1 initialState "FV001"
      ({ setpoint := some 3 } : FermenterData) rfl).2.2 1 (by norm_num)
    rw [show (fermenterRegisters ({ setpoint := some 3 } : FermenterData)).getD 1 0
        = pyInt ((3 : ℚ) * 10) from rfl] at hc
    rw [show pyInt ((3 : ℚ) * 10) = 30 from by
      norm_num [pyInt, rat_floor_eq_intFloor]] at hc
    exact hc

/-! ## Claim C9 -/

/-- C9, counterexample: in `src/main.py`, `_setup_datastore` builds coil and
discrete blocks of 100 cells from address 1, and register blocks of 1000
cells from 30001 / 40001 — none of the four spaces covers 1..65535 (the coil
space misses address 65535, the input space misses address 1). -/
theorem claimC9_counterexample :
    ¬ DataBlock.covers MainServer.setup_datastore.co 65535 ∧
    ¬ DataBlock.covers MainServer.setup_datastore.ir 1 := by
  constructor <;>
    · intro hcov
      unfold DataBlock.covers at hcov
      simp only [MainServer.setup_datastore] at hcov
      omega

/-- C9, amended: the four register spaces of `src/debug_server.py` each
cover every address 1..65535; those of `src/main.py` are fixed at
construction but cover only 1..100 (bit spaces), 40001..41000 (holding) and
30001..31000 (input). -/
theorem claimC9_amended :
    (∀ a : ℕ, 1 ≤ a → a ≤ 65535 →
      DataBlock.covers DebugServer.setup_datastore.di a ∧
      DataBlock.covers DebugServer.setup_datastore.co a ∧
      DataBlock.covers DebugServer.setup_datastore.hr a ∧
      DataBlock.covers DebugServer.setup_datastore.ir a) ∧
    (∀ a : ℕ, DataBlock.covers MainServer.setup_datastore.co a ↔ 1 ≤ a ∧ a ≤ 100) ∧
    (∀ a : ℕ, DataBlock.covers MainServer.setup_datastore.di a ↔ 1 ≤ a ∧ a ≤ 100) ∧
    (∀ a : ℕ, DataBlock.covers MainServer.setup_datastore.hr a ↔ 40001 ≤ a ∧ a ≤ 41000) ∧
    (∀ a : ℕ, DataBlock.covers MainServer.setup_datastore.ir a ↔ 30001 ≤ a ∧ a ≤ 31000) := by
  refine ⟨fun a h1 h2 => ?_, fun a => ?_, fun a => ?_, fun a => ?_, fun a => ?_⟩ <;>
    · unfold DataBlock.covers
      simp only [MainServer.setup_datastore, DebugServer.setup_datastore]
      omega

/-- C9, witness: address 1 is covered by all four debug-server spaces. -/
theorem claimC9_witness :
    (1 : ℕ) ≤ 1 ∧ (1 : ℕ) ≤ 65535 ∧
    (DataBlock.covers DebugServer.setup_datastore.di 1 ∧
     DataBlock.covers DebugServer.setup_datastore.co 1 ∧
     DataBlock.covers DebugServer.setup_datastore.hr 1 ∧
     DataBlock.covers DebugServer.setup_datastore.ir 1) :=
  ⟨le_refl 1, by norm_num, claimC9_amended.1 1 (le_refl 1) (by norm_num)⟩

/-! ## Claim C10 -/

/-- C10: holding register 40001 is shared between the chiller setpoint
mirror and the mirror of the fermenter in slot 0 (`40001 + 0`).  Whenever a
fermenter occupies slot 0, `read_setpoints` reports the same value for it and
for the chiller; updating the slot-0 fermenter changes the reported chiller
setpoint (0 becomes 3.0) and a chiller update changes the fermenter's
reported setpoint (0 becomes 4.0). -/
theorem claimC10 :
    (∀ (s : ServerState) (id : String),
      lookupFermenter s.fermenters id = some 0 →
      findSetpoint (read_setpoints s).2 id = some ((read_setpoints s).1)) ∧
    ((read_setpoints (add_fermenter initialState "FV001")).1 = 0 ∧
     (read_setpoints (MainServer.update_fermenter_data (add_fermenter initialState "FV001")
        "FV001" ({ setpoint := some 3 } : FermenterData))).1 = 3) ∧
    (findSetpoint (read_setpoints (add_fermenter initialState "FV001")).2 "FV001" = some 0 ∧
     findSetpoint (read_setpoints (MainServer.update_chiller_data
        (add_fermenter initialState "FV001")
        ({ setpoint := some 4 } : ChillerData))).2 "FV001" = some 4) := by
  have hl : lookupFermenter (add_fermenter initialState "FV001").fermenters "FV001"
      = some 0 := by decide
  refine ⟨?_, ⟨?_, ?_⟩, ⟨?_, ?_⟩⟩
  · intro s id h
    have hf := findSetpoint_read_setpoints s id 0 h
    rw [show ((40001 : ℤ) + ((0 : ℕ) : ℤ)) = 40001 from by norm_num] at hf
    exact hf
  · show (((add_fermenter initialState "FV001").holding 40001 : ℤ) : ℚ) / 10 = 0
    rw [add_fermenter_holding]
    norm_num [initialState]
  · have hc := main_update_fermenter_holding_cell (add_fermenter initialState "FV001")
      "FV001" ({ setpoint := some 3 } : FermenterData) 0 hl
    rw [show ((40001 : ℤ) + ((0 : ℕ) : ℤ)) = 40001 from by norm_num] at hc
    rw [show pyInt (((({ setpoint := some 3 } : FermenterData)).setpoint.getD 0) * 10) = 30
      from by norm_num [pyInt, rat_floor_eq_intFloor]] at hc
    show (((MainServer.update_fermenter_data (add_fermenter initialState "FV001") "FV001"
        ({ setpoint := some 3 } : FermenterData)).holding 40001 : ℤ) : ℚ) / 10 = 3
    rw [hc]
    norm_num
  · have hf := findSetpoint_read_setpoints (add_fermenter initialState "FV001") "FV001" 0 hl
    rw [add_fermenter_holding] at hf
    simpa [initialState] using hf
  · have hl2 : lookupFermenter (MainServer.update_chiller_data
        (add_fermenter initialState "FV001")
        ({ setpoint := some 4 } : ChillerData)).fermenters "FV001" = some 0 := hl
    have hf := findSetpoint_read_setpoints _ "FV001" 0 hl2
    rw [show ((40001 : ℤ) + ((0 : ℕ) : ℤ)) = 40001 from by norm_num] at hf
    rw [MainServer.update_chiller_holding_cell] at hf
    rw [show pyInt (((({ setpoint := some 4 } : ChillerData)).setpoint.getD 0) * 10) = 40
      from by norm_num [pyInt, rat_floor_eq_intFloor]] at hf
    rw [hf]
    norm_num

/-- C10, witness: with FV001 in slot 0, `read_setpoints` reports the same
value for FV001 and for the chiller. -/
theorem claimC10_witness :
    lookupFermenter (add_fermenter initialState "FV001").fermenters "FV001" = some 0 ∧
    findSetpoint (read_setpoints (add_fermenter initialState "FV001")).2 "FV001"
      = some ((read_setpoints (add_fermenter initialState "FV001")).1) :=
  ⟨by decide, claimC10.1 (add_fermenter initialState "FV001") "FV001" (by decide)⟩

/-- C6, witness for the amended theorem: in `src/main.py` the supply
temperature 2.3 does land in cell 30002 as 23. -/
theorem claimC6_witness :
    (MainServer.update_chiller_data initialState
        ({ supply_temp := some (23 / 10) } : ChillerData)).input (CHILLER_BASE + 1) = 23 := by
  have h := (claimC6_amended.1 initialState
    ({ supply_temp := some (23 / 10) } : ChillerData)).2.1
  rw [h]
  norm_num [pyInt, rat_floor_eq_intFloor]
